import Mathlib

/-!
Verification of the DCF (discounted-cash-flow) valuation pipeline of
`src/reporters/dcf.py`.

The Python module has four parts, embedded shallowly here:

  * `get_financials`           — Yahoo-Finance fetcher (shares-outstanding check);
  * `get_fmp_data`             — FMP cost-of-capital estimator (WACC, FCF CAGR,
                                  Gordon-growth terminal value);
  * `format_financial_number` / the explanation string — output formatting;
  * `calculate_dcf` and `run_dcf` — the valuation calculator and orchestrator.

Modelling conventions:

  * Python floats are modelled as exact numbers in a linear ordered field `K`
    (instantiated at `ℚ` for concrete evaluation and at `ℝ` where the code
    uses a real-valued power `**`).  Rounding in `f"{x:.2f}"` is modelled as
    round-half-even on the exact value.
  * Raising an exception is modelled with `Except PyError`; each error site of
    the Python code that a claim exercises becomes an explicit branch.  Lean's
    total division `x / 0 = 0` is only ever used on branches the code guards
    itself or that are proved unreachable.
  * Provider responses (JSON payloads) are records of the fields the code
    reads; a field a payload may lack is an `Option`.
-/

/-- The Python exception classes that `run_dcf`'s `try` block can see, each
carrying the message `str(e)` would produce. -/
inductive PyError where
  | valueError (msg : String)
  | zeroDivisionError (msg : String)
  | indexError (msg : String)
deriving DecidableEq

/-- Message of a caught exception: what Python's `str(e)` yields. -/
def PyError.msg : PyError → String
  | .valueError m => m
  | .zeroDivisionError m => m
  | .indexError m => m

section Formatting

variable {K : Type} [LinearOrderedField K] [FloorRing K]

/-- Round to the nearest integer, ties to the even neighbour — the rounding
Python's `format` applies for `:.2f` (on the exact value in this model). -/
def roundHalfEven (q : K) : ℤ :=
  let f := ⌊q⌋
  if q - f < 1/2 then f
  else if 1/2 < q - f then f + 1
  else if f % 2 = 0 then f else f + 1

/-- Two-digit zero padding for the fractional part of a fixed-point print. -/
def pad2 (n : ℕ) : String :=
  if n < 10 then "0" ++ toString n else toString n

/-- Python's `f"{q:.2f}"`: the number rendered with exactly two decimals,
sign first. -/
def formatFixed2 (q : K) : String :=
  let m := roundHalfEven (q * 100)
  (if m < 0 then "-" else "") ++ toString (m.natAbs / 100) ++ "." ++ pad2 (m.natAbs % 100)

/-- Python's `f"{q:.2%}"`: the value times 100 with two decimals and a `%`. -/
def formatPercent (q : K) : String :=
  formatFixed2 (q * 100) ++ "%"

/-- Function `format_financial_number` of `dcf.py` (lines 111–121): scale by the
magnitude of the absolute value and suffix `B`/`M`/`K`, two decimals, leading
`$`, the sign riding along with the scaled value. -/
def format_financial_number (number : K) : String :=
  let abs_num := |number|
  if abs_num ≥ 1e9 then "$" ++ formatFixed2 (number / 1e9) ++ "B"
  else if abs_num ≥ 1e6 then "$" ++ formatFixed2 (number / 1e6) ++ "M"
  else if abs_num ≥ 1e3 then "$" ++ formatFixed2 (number / 1e3) ++ "K"
  else "$" ++ formatFixed2 number

end Formatting

/-- Does `p` match the front of `s` character by character? -/
def matchesFront : List Char → List Char → Bool
  | [], _ => true
  | _ :: _, [] => false
  | c :: ps, d :: ss => c == d && matchesFront ps ss

/-- Does `p` occur contiguously anywhere in `s`? -/
def hasSubSeq (p : List Char) : List Char → Bool
  | [] => p.isEmpty
  | d :: t => matchesFront p (d :: t) || hasSubSeq p t

/-- The Python `in` test on strings: `p in s`. -/
def containsSub (p s : String) : Bool :=
  hasSubSeq p.data s.data

section Calculator

variable {K : Type} [LinearOrderedField K] [FloorRing K]

/-- The effective terminal growth rate of `calculate_dcf` (lines 133–140):
cap at 3%, then clamp to `discount_rate - 0.01` whenever
`discount_rate ≤ min growth_rate 0.03`. -/
def terminalGrowthRate (growth_rate discount_rate : K) : K :=
  let capped := min growth_rate (3/100)
  if discount_rate ≤ capped then discount_rate - 1/100 else capped

/-- The explanation string of `calculate_dcf` (lines 150–171), assembled from
the already-computed intermediate values exactly as the Python f-strings do. -/
def dcfExplanation (current_fcf : K) (projected_fcf : List K)
    (terminal_value_discounted enterprise_value equity_value : K)
    (revenue net_income operating_cash_flow capex debt cash : K)
    (discount_rate growth_rate terminal_growth_rate : K) : String :=
  "Explanation:\n" ++
  "\nValuation Breakdown:" ++
  "\n1. Current FCF: " ++ format_financial_number current_fcf ++
  "\n2. Projected FCFs (Present Value):" ++
  String.join (projected_fcf.enum.map
    (fun p => "\n   Year " ++ toString (p.1 + 1) ++ ": " ++ format_financial_number p.2)) ++
  "\n   Total PV of FCFs: " ++ format_financial_number projected_fcf.sum ++
  "\n3. Terminal Value (PV): " ++ format_financial_number terminal_value_discounted ++
  "\n4. Enterprise Value: " ++ format_financial_number enterprise_value ++
  "\n5. Equity Value: " ++ format_financial_number equity_value ++
  "\n\nKey Financials:" ++
  "\nRevenue: " ++ format_financial_number revenue ++
  "\nNet Income: " ++ format_financial_number net_income ++
  "\nOperating Cash Flow: " ++ format_financial_number operating_cash_flow ++
  "\nCapEx: " ++ format_financial_number capex ++
  "\nDebt: " ++ format_financial_number debt ++
  "\nCash: " ++ format_financial_number cash ++
  "\nWACC: " ++ formatPercent discount_rate ++
  "\nGrowth Rate: " ++ formatPercent growth_rate ++
  "\nTerminal Growth Rate: " ++ formatPercent terminal_growth_rate

/-- Function `calculate_dcf` (lines 123–173).  The two division sites that can actually
raise in Python are modelled as explicit error branches: the per-year discount
divisions (and the terminal-value discounting), which divide by
`(1 + discount_rate) ^ i` and so raise exactly when `discount_rate = -1` and at
least one period is projected; and the per-share division, which raises exactly
when `shares_outstanding = 0`.  The Gordon-growth denominator
`discount_rate - terminalGrowthRate ...` is proved strictly positive below
(`terminalGrowthRate_denominator_pos`), hence needs no error branch.  The
`fcf` and `terminal_value` parameters are accepted and ignored, as in the
source.  `terminal_value` is an `Option` because `run_dcf` feeds it the
nullable terminal value of `get_fmp_data`. -/
def calculate_dcf (fcf debt cash shares_outstanding growth_rate discount_rate : K)
    (terminal_value : Option K) (revenue net_income operating_cash_flow capex : K)
    (years : ℕ := 5) : Except PyError (K × String) :=
  let current_fcf := operating_cash_flow + capex
  if 0 < years ∧ 1 + discount_rate = 0 then
    .error (.zeroDivisionError "float division by zero")
  else
    let projected_fcf := (List.range years).map
      (fun i => current_fcf * (1 + growth_rate) ^ (i + 1) / (1 + discount_rate) ^ (i + 1))
    let terminal_growth_rate := terminalGrowthRate growth_rate discount_rate
    let terminal_year_fcf := current_fcf * (1 + growth_rate) ^ years
    let terminal_value' :=
      terminal_year_fcf * (1 + terminal_growth_rate) / (discount_rate - terminal_growth_rate)
    let terminal_value_discounted := terminal_value' / (1 + discount_rate) ^ years
    let enterprise_value := projected_fcf.sum + terminal_value_discounted
    let equity_value := enterprise_value - debt + cash
    if shares_outstanding = 0 then
      .error (.zeroDivisionError "float division by zero")
    else
      let intrinsic_value_per_share := equity_value / shares_outstanding
      .ok (intrinsic_value_per_share,
        dcfExplanation current_fcf projected_fcf terminal_value_discounted
          enterprise_value equity_value revenue net_income operating_cash_flow capex
          debt cash discount_rate growth_rate terminal_growth_rate)

end Calculator

section Estimator

/-- One FMP income-statement payload entry, reduced to the fields the code
reads.  `interestExpense` is looked up with an `in` test (default 0),
`incomeBeforeTax` with `.get` (absent or zero disables the tax rate), and
`incomeTaxExpense` is indexed directly only on the branch where
`incomeBeforeTax` is truthy. -/
structure FmpIncome where
  interestExpense? : Option ℚ
  incomeTaxExpense : ℚ
  incomeBeforeTax? : Option ℚ
deriving Inhabited, DecidableEq

/-- One FMP balance-sheet payload entry: `totalDebt` defaults to 0 when the
key is absent. -/
structure FmpBalance where
  totalDebt? : Option ℚ
deriving Inhabited, DecidableEq

/-- One FMP cash-flow payload entry: only entries carrying a `freeCashFlow`
key contribute to the CAGR list. -/
structure FmpCashFlow where
  freeCashFlow? : Option ℚ
deriving Inhabited, DecidableEq

/-- All data the FMP endpoints return to `get_fmp_data` for one ticker.
`beta?`, `year10?` and `marketCap?` are `none` when the respective endpoint
returns nothing usable (beta key missing / empty treasury list / empty quote
list), in which case the code falls back to 1.0, 0.0 and 0. -/
structure FmpData where
  beta? : Option ℚ
  year10? : Option ℚ
  marketCap? : Option ℚ
  incomeStmt : List FmpIncome
  balanceSheet : List FmpBalance
  cashFlows : List FmpCashFlow
deriving Inhabited, DecidableEq

/-- The WACC computation of `get_fmp_data` (lines 72–86), as a pure function
of the extracted inputs.  Lean's total `x / 0 = 0` is only reachable here in
the un-guarded corner `market_cap ≠ 0 ∧ market_cap + total_debt = 0` (Python
would raise there); no claim exercises that corner. -/
def fmpWacc (beta risk_free market_cap interest_expense total_debt
    income_tax_expense : ℚ) (income_before_tax : Option ℚ) : ℚ :=
  let market_return : ℚ := 8/100
  let cost_equity := risk_free + beta * (market_return - risk_free)
  let cost_debt := if total_debt ≠ 0 then interest_expense / total_debt else 0
  let tax_rate :=
    match income_before_tax with
    | some ibt => if ibt ≠ 0 then income_tax_expense / ibt else 0
    | none => 0
  let equity_weight := if market_cap ≠ 0 then market_cap / (market_cap + total_debt) else 0
  let debt_weight := if market_cap ≠ 0 then total_debt / (market_cap + total_debt) else 0
  equity_weight * cost_equity + debt_weight * cost_debt * (1 - tax_rate)

/-- The growth-rate step of `get_fmp_data` (lines 93–97):
`(fcf[0] / fcf[-1]) ** (1 / (len(fcf) - 1)) - 1` when at least two usable
free-cash-flow values exist, else the 0.02 fallback.  `fcf[0] / fcf[-1]`
raises `ZeroDivisionError` when the oldest value is zero; the float `**` is
modelled by the real power. -/
noncomputable def fmpGrowthM (fcfs : List ℚ) : Except PyError ℝ :=
  if 2 ≤ fcfs.length then
    if fcfs.getLastI = 0 then .error (.zeroDivisionError "float division by zero")
    else .ok (((fcfs.headI : ℝ) / (fcfs.getLastI : ℝ)) ^ ((1 : ℝ) / ((fcfs.length : ℝ) - 1)) - 1)
  else .ok 0.02

/-- The terminal-value step of `get_fmp_data` (lines 99–106): `fcf[0]` raises
`IndexError` on an empty list (the `try` only catches `ZeroDivisionError`);
the Gordon-growth division is guarded, yielding `None` exactly when the float
subtraction `wacc - g` is zero. -/
noncomputable def fmpTerminalM (fcfs : List ℚ) (wacc g : ℝ) : Except PyError (Option ℝ) :=
  match fcfs with
  | [] => .error (.indexError "list index out of range")
  | last_fcf :: _ =>
    if wacc - g = 0 then .ok none
    else .ok (some ((last_fcf : ℝ) * (1 + g) / (wacc - g)))

/-- Function `get_fmp_data` (lines 45–108) on an already-fetched `FmpData`: raises
`ValueError` when the income-statement or balance-sheet payload is empty,
otherwise returns `(wacc, growth_rate, terminal_value)`.  The dead `wacc is
None` re-check of `run_dcf` never fires because `results['wacc']` is always
assigned. -/
noncomputable def get_fmp_data (f : FmpData) (ticker : String) :
    Except PyError (ℚ × ℝ × Option ℝ) :=
  match f.incomeStmt, f.balanceSheet with
  | inc :: _, bal :: _ =>
    let beta := f.beta?.getD 1
    let risk_free := f.year10?.getD 0 / 100
    let market_cap := f.marketCap?.getD 0
    let interest_expense := inc.interestExpense?.getD 0
    let total_debt := bal.totalDebt?.getD 0
    let wacc := fmpWacc beta risk_free market_cap interest_expense total_debt
      inc.incomeTaxExpense inc.incomeBeforeTax?
    let fcf := f.cashFlows.filterMap (fun cf => cf.freeCashFlow?)
    match fmpGrowthM fcf with
    | .error e => .error e
    | .ok growth_rate =>
      match fmpTerminalM fcf (wacc : ℝ) growth_rate with
      | .error e => .error e
      | .ok terminal_value => .ok (wacc, growth_rate, terminal_value)
  | _, _ => .error (.valueError ("Financial statements not available for " ++ ticker))

end Estimator

section Orchestrator

/-- The Yahoo-Finance data `get_financials` extracts for one ticker, after
the alias lookups and the `or 0` defaults for debt and cash have been applied.
`sharesOutstanding?` is `none` when `stock.info` lacks the key. -/
structure YahooData where
  revenue : ℚ
  netIncome : ℚ
  operatingCashFlow : ℚ
  capex : ℚ
  debt : ℚ
  cash : ℚ
  sharesOutstanding? : Option ℚ
deriving Inhabited, DecidableEq

/-- Function `get_financials` (lines 16–43): the only hard failure is a missing
shares-outstanding figure, raised as a `ValueError` naming the ticker. -/
def get_financials (y : YahooData) (ticker : String) :
    Except PyError (ℚ × ℚ × ℚ × ℚ × ℚ × ℚ × ℚ) :=
  match y.sharesOutstanding? with
  | none => .error (.valueError ("Shares outstanding data unavailable for " ++ ticker))
  | some shares =>
    .ok (y.revenue, y.netIncome, y.operatingCashFlow, y.capex, y.debt, y.cash, shares)

/-- The structured result `run_dcf` returns to its caller: either both the
per-share value and the explanation, or only an error message. -/
inductive DcfResult where
  | success (intrinsic_value_per_share : ℝ) (explanation : String)
  | failure (error : String)

/-- The body of `run_dcf`'s `try` block (lines 176–192): fetch, estimate,
calculate. -/
noncomputable def runDcfRaw (y : YahooData) (f : FmpData) (ticker : String) :
    Except PyError (ℝ × String) := do
  let (revenue, net_income, operating_cash_flow, capex, debt, cash, shares_outstanding) ←
    get_financials y ticker
  let fcf := operating_cash_flow + capex
  let (wacc, growth_rate, terminal_value) ← get_fmp_data f ticker
  calculate_dcf (K := ℝ) fcf debt cash shares_outstanding growth_rate wacc
    (terminal_value) revenue net_income operating_cash_flow capex 5

/-- Function `run_dcf` (lines 175–197): a `ValueError` message is surfaced verbatim,
any other exception is wrapped with the `"Unexpected error: "` prefix. -/
noncomputable def run_dcf (y : YahooData) (f : FmpData) (ticker : String) : DcfResult :=
  match runDcfRaw y f ticker with
  | .ok (intrinsic_value, explanation) => .success intrinsic_value explanation
  | .error (.valueError m) => .failure m
  | .error e => .failure ("Unexpected error: " ++ e.msg)

end Orchestrator

theorem matchesFront_append (p s t : List Char) (h : matchesFront p s = true) :
    matchesFront p (s ++ t) = true := by
  induction p generalizing s with
  | nil => simp [matchesFront]
  | cons c ps ih =>
    cases s with
    | nil => simp [matchesFront] at h
    | cons d ss =>
      simp only [matchesFront, Bool.and_eq_true] at h ⊢
      exact ⟨h.1, ih ss h.2⟩

theorem hasSubSeq_nil_left (t : List Char) : hasSubSeq [] t = true := by
  cases t <;> simp [hasSubSeq, matchesFront]

theorem hasSubSeq_append_left (p s t : List Char) (h : hasSubSeq p s = true) :
    hasSubSeq p (s ++ t) = true := by
  induction s with
  | nil =>
    simp only [hasSubSeq, List.isEmpty_iff] at h
    subst h
    simpa using hasSubSeq_nil_left t
  | cons d ss ih =>
    simp only [hasSubSeq, Bool.or_eq_true] at h ⊢
    rcases h with h | h
    · exact Or.inl (matchesFront_append p (d :: ss) t h)
    · exact Or.inr (ih h)

theorem hasSubSeq_append_right (p s t : List Char) (h : hasSubSeq p t = true) :
    hasSubSeq p (s ++ t) = true := by
  induction s with
  | nil => simpa using h
  | cons d ss ih =>
    simp only [List.cons_append, hasSubSeq, Bool.or_eq_true]
    exact Or.inr ih

theorem containsSub_append_left (p s t : String) (h : containsSub p s = true) :
    containsSub p (s ++ t) = true := by
  simpa [containsSub, String.data_append] using
    hasSubSeq_append_left p.data s.data t.data (by simpa [containsSub] using h)

theorem containsSub_append_right (p s t : String) (h : containsSub p t = true) :
    containsSub p (s ++ t) = true := by
  simpa [containsSub, String.data_append] using
    hasSubSeq_append_right p.data s.data t.data (by simpa [containsSub] using h)

section FormattingLemmas

variable {K : Type} [LinearOrderedField K] [FloorRing K]

theorem roundHalfEven_eq_floor (q : K) (n : ℤ) (h1 : ⌊q⌋ = n) (h2 : q - n < 1/2) :
    roundHalfEven q = n := by
  rw [roundHalfEven]
  simp only [h1]
  rw [if_pos h2]

theorem roundHalfEven_eq_floor_add_one (q : K) (n : ℤ) (h1 : ⌊q⌋ = n)
    (h2 : 1/2 < q - n) : roundHalfEven q = n + 1 := by
  rw [roundHalfEven]
  simp only [h1]
  rw [if_neg (not_lt.mpr h2.le), if_pos h2]

theorem formatFixed2_of_round (q : K) (m : ℤ) (h : roundHalfEven (q * 100) = m) :
    formatFixed2 q =
      (if m < 0 then "-" else "") ++ toString (m.natAbs / 100) ++ "." ++ pad2 (m.natAbs % 100) := by
  simp [formatFixed2, h]

end FormattingLemmas

section Helpers

variable {K : Type} [LinearOrderedField K] [FloorRing K]

/-- The Gordon-growth denominator of `calculate_dcf` is strictly positive for
every growth and discount rate: clamping leaves a gap of exactly 0.01, and
without clamping the discount rate strictly exceeds the capped growth rate. -/
theorem terminalGrowthRate_denominator_pos (g d : K) :
    0 < d - terminalGrowthRate g d := by
  rw [terminalGrowthRate]
  by_cases h : d ≤ min g (3/100)
  · rw [if_pos h]
    ring_nf
    norm_num
  · rw [if_neg h]
    exact sub_pos.mpr (not_le.mp h)

/-- With zero shares outstanding, `calculate_dcf` always raises a
`ZeroDivisionError` (at the per-share division, or earlier in the projection
loop when `discount_rate = -1`). -/
theorem calculate_dcf_zero_shares (fcf debt cash growth_rate discount_rate : K)
    (tv : Option K) (revenue net_income ocf capex : K) (years : ℕ) :
    calculate_dcf fcf debt cash 0 growth_rate discount_rate tv revenue net_income ocf capex years
      = .error (.zeroDivisionError "float division by zero") := by
  rw [calculate_dcf]
  split_ifs with h1 h2
  · rfl
  · rfl
  · exact absurd rfl h2

/-- The only exception `fmpGrowthM` can raise is the `ZeroDivisionError` from
`fcf[0] / fcf[-1]`. -/
theorem fmpGrowthM_error_elim (l : List ℚ) (e : PyError)
    (h : fmpGrowthM l = .error e) : e = .zeroDivisionError "float division by zero" := by
  rw [fmpGrowthM] at h
  split_ifs at h <;>
    first
    | exact (Except.error.inj h).symm
    | exact absurd h (by simp)

/-- The only exception `fmpTerminalM` can raise is the `IndexError` from
`fcf[0]` on an empty list. -/
theorem fmpTerminalM_error_elim (l : List ℚ) (w g : ℝ) (e : PyError)
    (h : fmpTerminalM l w g = .error e) : e = .indexError "list index out of range" := by
  match l with
  | [] =>
    rw [fmpTerminalM] at h
    exact (Except.error.inj h).symm
  | a :: t =>
    rw [fmpTerminalM] at h
    split_ifs at h <;> simp at h

end Helpers

/-- C1 (counterexample): with `discount_rate = growth_rate = 0.08` the
effective terminal growth rate is the 3% cap, not `discount_rate - 0.01`:
the clamp rule of step 4.3.4 does **not** engage when wacc equals the growth
rate but exceeds 0.03. -/
theorem C1_clamp_counterexample :
    terminalGrowthRate (0.08 : ℚ) 0.08 = 3/100 ∧
      terminalGrowthRate (0.08 : ℚ) 0.08 ≠ 0.08 - 0.01 := by
  constructor <;> norm_num [terminalGrowthRate]

/-- C1 (amended): in `calculate_dcf` the effective terminal growth rate is
`min growth_rate 0.03`, reset to `discount_rate - 0.01` exactly when
`discount_rate ≤ min growth_rate 0.03`; the terminal-value denominator
`discount_rate - terminal_growth_rate` is strictly positive for every input,
so the terminal-value division never divides by zero; and when the discount
rate equals the growth rate the denominator is still strictly positive, the
clamp engaging exactly when the common rate is at most 0.03. -/
theorem C1_terminal_growth_clamp (g d : ℚ) :
    (d ≤ min g (3/100) → terminalGrowthRate g d = d - 1/100) ∧
    (¬ d ≤ min g (3/100) → terminalGrowthRate g d = min g (3/100)) ∧
    0 < d - terminalGrowthRate g d ∧
    (d = g → 0 < d - terminalGrowthRate g d ∧ (d ≤ min g (3/100) ↔ d ≤ 3/100)) := by
  refine ⟨fun h => ?_, fun h => ?_, terminalGrowthRate_denominator_pos g d,
    fun hdg => ⟨terminalGrowthRate_denominator_pos g d, ?_⟩⟩
  · rw [terminalGrowthRate, if_pos h]
  · rw [terminalGrowthRate, if_neg h]
  · subst hdg
    simp [le_min_iff]

/-- C1 witness: at growth = discount = 0.02 the clamp hypothesis holds and
the theorem applies. -/
theorem C1_terminal_growth_clamp_witness :
    terminalGrowthRate (0.02 : ℚ) 0.02 = 0.02 - 1/100 ∧
      0 < (0.02 : ℚ) - terminalGrowthRate 0.02 0.02 :=
  ⟨(C1_terminal_growth_clamp 0.02 0.02).1 (by norm_num),
    (C1_terminal_growth_clamp 0.02 0.02).2.2.1⟩

section FormatBranches

variable {K : Type} [LinearOrderedField K] [FloorRing K]

theorem format_financial_number_billions (x : K) (h : 1e9 ≤ |x|) :
    format_financial_number x = "$" ++ formatFixed2 (x / 1e9) ++ "B" := by
  rw [format_financial_number, if_pos h]

theorem format_financial_number_millions (x : K) (h1 : |x| < 1e9) (h2 : 1e6 ≤ |x|) :
    format_financial_number x = "$" ++ formatFixed2 (x / 1e6) ++ "M" := by
  rw [format_financial_number, if_neg (not_le.mpr h1), if_pos h2]

theorem format_financial_number_thousands (x : K) (h1 : |x| < 1e6) (h2 : 1e3 ≤ |x|) :
    format_financial_number x = "$" ++ formatFixed2 (x / 1e3) ++ "K" := by
  have h0 : |x| < 1e9 := h1.trans_le (by norm_num)
  rw [format_financial_number, if_neg (not_le.mpr h0), if_neg (not_le.mpr h1), if_pos h2]

theorem format_financial_number_raw (x : K) (h : |x| < 1e3) :
    format_financial_number x = "$" ++ formatFixed2 x := by
  have h6 : |x| < 1e6 := h.trans_le (by norm_num)
  have h9 : |x| < 1e9 := h.trans_le (by norm_num)
  rw [format_financial_number, if_neg (not_le.mpr h9), if_neg (not_le.mpr h6),
    if_neg (not_le.mpr h)]

end FormatBranches

/-- C8: `format_financial_number` selects its scale by magnitude thresholds on
the absolute value (≥ 1e9 → billions with suffix `B`, else ≥ 1e6 → `M`, else
≥ 1e3 → `K`, else the raw value), always two decimals with a leading `$` and
the sign preserved; on the four sample inputs it yields `$1.50B`, `$2.50M`,
`$500.00` and `$-3.20K`. -/
theorem C8_format_financial_number :
    (∀ x : ℚ, 1e9 ≤ |x| → format_financial_number x = "$" ++ formatFixed2 (x / 1e9) ++ "B") ∧
    (∀ x : ℚ, |x| < 1e9 → 1e6 ≤ |x| →
      format_financial_number x = "$" ++ formatFixed2 (x / 1e6) ++ "M") ∧
    (∀ x : ℚ, |x| < 1e6 → 1e3 ≤ |x| →
      format_financial_number x = "$" ++ formatFixed2 (x / 1e3) ++ "K") ∧
    (∀ x : ℚ, |x| < 1e3 → format_financial_number x = "$" ++ formatFixed2 x) ∧
    format_financial_number (1500000000 : ℚ) = "$1.50B" ∧
    format_financial_number (2500000 : ℚ) = "$2.50M" ∧
    format_financial_number (500 : ℚ) = "$500.00" ∧
    format_financial_number (-3200 : ℚ) = "$-3.20K" := by
  refine ⟨format_financial_number_billions, format_financial_number_millions,
    format_financial_number_thousands, format_financial_number_raw, ?_, ?_, ?_, ?_⟩
  · rw [format_financial_number_billions _ (by norm_num),
      show (1500000000 : ℚ) / 1e9 = 3/2 by norm_num,
      formatFixed2_of_round _ 150 (roundHalfEven_eq_floor _ 150 (by norm_num) (by norm_num))]
    decide
  · rw [format_financial_number_millions _ (by norm_num) (by norm_num),
      show (2500000 : ℚ) / 1e6 = 5/2 by norm_num,
      formatFixed2_of_round _ 250 (roundHalfEven_eq_floor _ 250 (by norm_num) (by norm_num))]
    decide
  · rw [format_financial_number_raw _ (by norm_num),
      formatFixed2_of_round _ 50000 (roundHalfEven_eq_floor _ 50000 (by norm_num) (by norm_num))]
    decide
  · rw [format_financial_number_thousands _ (by norm_num) (by norm_num),
      show (-3200 : ℚ) / 1e3 = -16/5 by norm_num,
      formatFixed2_of_round _ (-320) (roundHalfEven_eq_floor _ (-320) (by norm_num) (by norm_num))]
    decide

/-- C8 witness: the billions branch applied at a fresh concrete input. -/
theorem C8_format_financial_number_witness :
    format_financial_number (2000000000 : ℚ) = "$" ++ formatFixed2 ((2000000000 : ℚ) / 1e9) ++ "B" :=
  C8_format_financial_number.1 2000000000 (by norm_num)

/-- C4: with at least two usable free-cash-flow values (newest first, oldest
nonzero so the Python quotient exists), the estimator's growth rate is the
CAGR `(fcf_latest / fcf_oldest) ^ (1 / (n - 1)) - 1`; with fewer than two it
is exactly the 0.02 fallback. -/
theorem C4_growth_rate_cagr :
    (∀ fcfs : List ℚ, 2 ≤ fcfs.length → fcfs.getLastI ≠ 0 →
      fmpGrowthM fcfs =
        .ok (((fcfs.headI : ℝ) / (fcfs.getLastI : ℝ)) ^ ((1 : ℝ) / ((fcfs.length : ℝ) - 1)) - 1)) ∧
    (∀ fcfs : List ℚ, fcfs.length < 2 → fmpGrowthM fcfs = .ok 0.02) := by
  constructor
  · intro fcfs h2 hlast
    rw [fmpGrowthM, if_pos h2, if_neg hlast]
  · intro fcfs h2
    rw [fmpGrowthM, if_neg (not_le.mpr h2)]

/-- C4 witness: the CAGR branch at `[4, 1]` and the fallback at `[]`. -/
theorem C4_growth_rate_cagr_witness :
    fmpGrowthM [(4 : ℚ), 1] =
        .ok ((((4 : ℚ) : ℝ) / ((1 : ℚ) : ℝ)) ^ ((1 : ℝ) / (((2 : ℕ) : ℝ) - 1)) - 1) ∧
      fmpGrowthM ([] : List ℚ) = .ok 0.02 :=
  ⟨C4_growth_rate_cagr.1 [4, 1] (by norm_num) (by norm_num [List.getLastI]),
    C4_growth_rate_cagr.2 [] (by norm_num)⟩

/-- C9: on a nonempty usable free-cash-flow list the estimator's terminal
value is `None` exactly when wacc equals the growth rate (the guarded
division), and otherwise equals the Gordon-Growth estimate
`latest_fcf * (1 + g) / (wacc - g)`. -/
theorem C9_terminal_value_guard (last_fcf : ℚ) (rest : List ℚ) (wacc g : ℝ) :
    (fmpTerminalM (last_fcf :: rest) wacc g = .ok none ↔ wacc = g) ∧
    (wacc ≠ g →
      fmpTerminalM (last_fcf :: rest) wacc g =
        .ok (some ((last_fcf : ℝ) * (1 + g) / (wacc - g)))) := by
  constructor
  · constructor
    · intro h
      by_cases hc : wacc - g = 0
      · exact sub_eq_zero.mp hc
      · rw [fmpTerminalM, if_neg hc] at h
        simp at h
    · intro h
      rw [fmpTerminalM, if_pos (sub_eq_zero.mpr h)]
  · intro h
    rw [fmpTerminalM, if_neg (sub_ne_zero_of_ne h)]

/-- C9 witness: equal rates give `None`; distinct rates give the estimate. -/
theorem C9_terminal_value_guard_witness :
    fmpTerminalM [(1 : ℚ)] 0.05 0.05 = .ok none ∧
      fmpTerminalM [(1 : ℚ)] 0.08 0.05 =
        .ok (some (((1 : ℚ) : ℝ) * (1 + 0.05) / (0.08 - 0.05))) :=
  ⟨(C9_terminal_value_guard 1 [] 0.05 0.05).1.mpr rfl,
    (C9_terminal_value_guard 1 [] 0.08 0.05).2 (by norm_num)⟩

/-- C3: the estimator's WACC is
`equity_weight * cost_of_equity + debt_weight * cost_of_debt * (1 - tax_rate)`
with `cost_of_equity = risk_free + beta * (0.08 - risk_free)`,
`cost_of_debt = interest / debt` (0 when debt is 0),
`tax_rate = tax_expense / income_before_tax` (0 when absent or 0), and both
capital-structure weights 0 when market cap is 0; and the wacc returned by
`get_fmp_data` is exactly this function of the extracted payload fields. -/
theorem C3_wacc_formula :
    (∀ (beta risk_free market_cap interest_expense total_debt income_tax_expense : ℚ)
        (income_before_tax : Option ℚ),
      fmpWacc beta risk_free market_cap interest_expense total_debt income_tax_expense
          income_before_tax =
        (if market_cap = 0 then 0 else market_cap / (market_cap + total_debt)) *
            (risk_free + beta * (0.08 - risk_free)) +
          (if market_cap = 0 then 0 else total_debt / (market_cap + total_debt)) *
            (if total_debt = 0 then 0 else interest_expense / total_debt) *
            (1 - (match income_before_tax with
                  | some ibt => if ibt = 0 then 0 else income_tax_expense / ibt
                  | none => 0))) ∧
    (∀ (f : FmpData) (t : String) (w : ℚ) (g : ℝ) (tv : Option ℝ),
      get_fmp_data f t = .ok (w, g, tv) →
        w = fmpWacc (f.beta?.getD 1) (f.year10?.getD 0 / 100) (f.marketCap?.getD 0)
          (f.incomeStmt.headI.interestExpense?.getD 0) (f.balanceSheet.headI.totalDebt?.getD 0)
          f.incomeStmt.headI.incomeTaxExpense f.incomeStmt.headI.incomeBeforeTax?) := by
  constructor
  · intro beta risk_free market_cap interest_expense total_debt income_tax_expense ibt?
    rcases ibt? with _ | ibt <;>
      by_cases h1 : market_cap = 0 <;>
      simp only [fmpWacc, h1, ne_eq, not_true_eq_false, not_false_eq_true, if_true, if_false,
        ite_true, ite_false] <;>
      by_cases h2 : total_debt = 0 <;>
      simp only [h2, not_true_eq_false, not_false_eq_true, if_true, if_false, ite_true,
        ite_false] <;>
      first
      | norm_num
      | (by_cases h3 : ibt = 0 <;> simp only [h3, not_true_eq_false, not_false_eq_true,
          if_true, if_false, ite_true, ite_false] <;> norm_num)
  · intro f t w g tv h
    rcases f with ⟨b, yr, mc, inc, bal, cfs⟩
    cases inc with
    | nil => exact absurd h (by simp [get_fmp_data])
    | cons inc0 incs =>
      cases bal with
      | nil => exact absurd h (by simp [get_fmp_data])
      | cons bal0 bals =>
        simp only [get_fmp_data] at h
        split at h
        · exact absurd h (by simp)
        · split at h
          · exact absurd h (by simp)
          · simp only [Except.ok.injEq, Prod.mk.injEq] at h
            simp only [List.headI]
            exact h.1.symm

/-- C3 witness: the linkage applied at a concrete payload (empty quote and
treasury endpoints, a single income/balance/cash-flow entry). -/
theorem C3_wacc_formula_witness :
    (0 : ℚ) = fmpWacc 1 0 0 0 0 0 none := by
  have h := C3_wacc_formula.2 ⟨none, none, none, [⟨none, 0, none⟩], [⟨none⟩], [⟨some 1⟩]⟩
    "T" 0 0.02 (some (((1 : ℚ) : ℝ) * (1 + 0.02) / (((0 : ℚ) : ℝ) - 0.02)))
    (by
      have hw : fmpWacc 1 0 0 0 0 0 none = 0 := by norm_num [fmpWacc]
      simp only [get_fmp_data, List.filterMap]
      norm_num [hw, fmpGrowthM, fmpTerminalM])
  simpa using h

/-- C5 counterexample: with income-statement data present but an empty
balance-sheet payload, `get_fmp_data` still raises the
financials-unavailable `ValueError` — statement data exists, yet the error
is raised, because the code checks `not income_stmt or not balance_sheet`. -/
theorem C5_financials_counterexample :
    get_fmp_data ⟨none, none, none, [⟨none, 0, none⟩], [], []⟩ "AAPL"
        = .error (.valueError "Financial statements not available for AAPL") ∧
      (⟨none, none, none, [⟨none, 0, none⟩], [], []⟩ : FmpData).incomeStmt ≠ [] := by
  constructor
  · rfl
  · simp

/-- C5 (amended): `get_fmp_data` fails with the financials-unavailable
`ValueError` (whose message names the ticker) exactly when the income
statement payload or the balance sheet payload is empty — in particular when
neither exists — and hence does not raise it only when both statements are
present. -/
theorem C5_financials_check (f : FmpData) (t : String) :
    get_fmp_data f t = .error (.valueError ("Financial statements not available for " ++ t))
      ↔ (f.incomeStmt = [] ∨ f.balanceSheet = []) := by
  rcases f with ⟨b, yr, mc, inc, bal, cfs⟩
  cases inc with
  | nil => simp [get_fmp_data]
  | cons inc0 incs =>
    cases bal with
    | nil => simp [get_fmp_data]
    | cons bal0 bals =>
      constructor
      · intro h
        exfalso
        simp only [get_fmp_data] at h
        split at h
        · rename_i e heq
          have he := fmpGrowthM_error_elim _ e heq
          subst he
          simp at h
        · split at h
          · rename_i e heq
            have he := fmpTerminalM_error_elim _ _ _ e heq
            subst he
            simp at h
          · simp at h
      · intro h
        rcases h with h | h <;> simp at h

/-- C5 witness: with both payloads empty the amended rule yields the error. -/
theorem C5_financials_check_witness :
    get_fmp_data ⟨none, none, none, [], [], []⟩ "MSFT"
      = .error (.valueError "Financial statements not available for MSFT") :=
  (C5_financials_check ⟨none, none, none, [], [], []⟩ "MSFT").mpr (Or.inl rfl)

/-- C10: when both statements are present but no cash-flow entry carries a
usable `freeCashFlow` value, `get_fmp_data` does not return a terminal value
of `None`: after the 0.02 growth fallback, reading `fcf[0]` raises an
`IndexError` (the guard catches only `ZeroDivisionError`) and the
orchestrator surfaces the run as a generic `Unexpected error: ...` result. -/
theorem C10_empty_fcf_index_error (f : FmpData) (t : String)
    (hinc : f.incomeStmt ≠ []) (hbal : f.balanceSheet ≠ [])
    (hfcf : f.cashFlows.filterMap (fun cf => cf.freeCashFlow?) = []) :
    get_fmp_data f t = .error (.indexError "list index out of range") ∧
    (∀ w g, get_fmp_data f t ≠ .ok (w, g, none)) ∧
    (∀ (y : YahooData) (s : ℚ), y.sharesOutstanding? = some s →
      run_dcf y f t = .failure ("Unexpected error: list index out of range")) := by
  rcases f with ⟨b, yr, mc, inc, bal, cfs⟩
  cases inc with
  | nil => exact absurd rfl hinc
  | cons inc0 incs =>
    cases bal with
    | nil => exact absurd rfl hbal
    | cons bal0 bals =>
      simp only at hfcf
      have hmain : get_fmp_data ⟨b, yr, mc, inc0 :: incs, bal0 :: bals, cfs⟩ t
          = .error (.indexError "list index out of range") := by
        simp only [get_fmp_data, hfcf]
        rfl
      refine ⟨hmain, by simp [hmain], ?_⟩
      intro y s hy
      rw [run_dcf, runDcfRaw]
      rw [show get_financials y t
          = .ok (y.revenue, y.netIncome, y.operatingCashFlow, y.capex, y.debt, y.cash, s) by
        rw [get_financials, hy]]
      simp only [bind, Except.bind]
      rw [hmain]
      rfl

/-- C10 witness: a concrete payload with statements present and an empty
usable-FCF list. -/
theorem C10_empty_fcf_index_error_witness :
    run_dcf ⟨0, 0, 0, 0, 0, 0, some 1⟩
        ⟨none, none, none, [⟨none, 0, none⟩], [⟨none⟩], [⟨none⟩]⟩ "GOOG"
      = .failure "Unexpected error: list index out of range" :=
  (C10_empty_fcf_index_error ⟨none, none, none, [⟨none, 0, none⟩], [⟨none⟩], [⟨none⟩]⟩ "GOOG"
    (by simp) (by simp) (by simp)).2.2 ⟨0, 0, 0, 0, 0, 0, some 1⟩ 1 rfl

/-- C6: with shares outstanding present but equal to 0, `run_dcf` always
returns a structured failure result (no exception escapes the orchestrator),
even though the per-share division step of `calculate_dcf` raises a
`ZeroDivisionError` on every such input. -/
theorem C6_zero_shares :
    (∀ (y : YahooData) (f : FmpData) (t : String), y.sharesOutstanding? = some 0 →
      ∃ msg, run_dcf y f t = .failure msg) ∧
    (∀ (fcf debt cash growth_rate discount_rate : ℝ) (tv : Option ℝ)
        (revenue net_income ocf capex : ℝ) (years : ℕ),
      calculate_dcf fcf debt cash 0 growth_rate discount_rate tv revenue net_income ocf capex
          years
        = .error (.zeroDivisionError "float division by zero")) := by
  constructor
  · intro y f t hy
    rw [run_dcf, runDcfRaw]
    rw [show get_financials y t
        = .ok (y.revenue, y.netIncome, y.operatingCashFlow, y.capex, y.debt, y.cash, 0) by
      rw [get_financials, hy]]
    simp only [bind, Except.bind]
    rcases hf : get_fmp_data f t with e | ⟨w, g, tv⟩
    · cases e <;> exact ⟨_, rfl⟩
    · simp only [Rat.cast_zero]
      rw [calculate_dcf_zero_shares]
      exact ⟨_, rfl⟩
  · intro fcf debt cash growth_rate discount_rate tv revenue net_income ocf capex years
    exact calculate_dcf_zero_shares fcf debt cash growth_rate discount_rate tv revenue
      net_income ocf capex years

/-- C6 witness: a concrete zero-shares input yields a failure result. -/
theorem C6_zero_shares_witness :
    ∃ msg, run_dcf ⟨0, 0, 0, 0, 0, 0, some 0⟩ ⟨none, none, none, [], [], []⟩ "NVDA"
      = .failure msg :=
  C6_zero_shares.1 ⟨0, 0, 0, 0, 0, 0, some 0⟩ ⟨none, none, none, [], [], []⟩ "NVDA" rfl

/-- C7: `run_dcf` returns either a success value (intrinsic value per share
plus explanation) or a failure value carrying only an error message, never
both; a `ValueError` raised inside the pipeline is surfaced with its message
verbatim, and every other exception is surfaced wrapped with the
`"Unexpected error: "` prefix. -/
theorem C7_result_shape :
    (∀ (y : YahooData) (f : FmpData) (t : String),
      (∃ iv expl, run_dcf y f t = .success iv expl) ∨ (∃ msg, run_dcf y f t = .failure msg)) ∧
    (∀ (y : YahooData) (f : FmpData) (t m : String),
      runDcfRaw y f t = .error (.valueError m) → run_dcf y f t = .failure m) ∧
    (∀ (y : YahooData) (f : FmpData) (t : String) (e : PyError),
      runDcfRaw y f t = .error e → (∀ m, e ≠ .valueError m) →
        run_dcf y f t = .failure ("Unexpected error: " ++ e.msg)) := by
  refine ⟨fun y f t => ?_, fun y f t m h => ?_, fun y f t e h hne => ?_⟩
  · rcases h : runDcfRaw y f t with e | ⟨iv, expl⟩
    · cases e
      · exact Or.inr ⟨_, by rw [run_dcf, h]⟩
      · exact Or.inr ⟨_, by rw [run_dcf, h]⟩
      · exact Or.inr ⟨_, by rw [run_dcf, h]⟩
    · exact Or.inl ⟨iv, expl, by rw [run_dcf, h]⟩
  · rw [run_dcf, h]
  · cases e with
    | valueError m => exact absurd rfl (hne m)
    | zeroDivisionError m => rw [run_dcf, h]
    | indexError m => rw [run_dcf, h]

/-- C7 witness: a missing shares-outstanding figure is a `ValueError` whose
message `run_dcf` hands back verbatim. -/
theorem C7_result_shape_witness :
    run_dcf ⟨0, 0, 0, 0, 0, 0, none⟩ ⟨none, none, none, [], [], []⟩ "TSLA"
      = .failure "Shares outstanding data unavailable for TSLA" :=
  C7_result_shape.2.1 ⟨0, 0, 0, 0, 0, 0, none⟩ ⟨none, none, none, [], [], []⟩ "TSLA"
    "Shares outstanding data unavailable for TSLA" rfl

/-- C2: for non-degenerate inputs, `calculate_dcf` over a five-period horizon
returns `.ok` with the per-share value
`(Σ discounted projections + discounted terminal value − debt + cash) / shares`,
the projections being `current_fcf·(1+g)^i / (1+d)^i` for `i = 1..5` with
`current_fcf = operating_cash_flow + capital_expenditure`; and on the concrete
scenario (operating cash flow 3e9, capex −1e9, debt 5e9, cash 1e9, shares 1e9,
growth 5%, wacc 8%) the current FCF is 2e9, the per-share result is a single
positive rational, and the explanation contains the literal substrings
`"WACC: 8.00%"` and `"Growth Rate: 5.00%"`. -/
theorem C2_dcf_valuation :
    (∀ (fcf debt cash shares growth_rate discount_rate : ℚ) (tv : Option ℚ)
        (revenue net_income ocf capex : ℚ),
      1 + discount_rate ≠ 0 → shares ≠ 0 →
      calculate_dcf fcf debt cash shares growth_rate discount_rate tv revenue net_income ocf
          capex 5 =
        (let current_fcf := ocf + capex
         let projected_fcf := (List.range 5).map
           (fun i => current_fcf * (1 + growth_rate) ^ (i + 1) / (1 + discount_rate) ^ (i + 1))
         let tg := terminalGrowthRate growth_rate discount_rate
         let terminal_value_discounted :=
           current_fcf * (1 + growth_rate) ^ 5 * (1 + tg) / (discount_rate - tg) /
             (1 + discount_rate) ^ 5
         let enterprise_value := projected_fcf.sum + terminal_value_discounted
         let equity_value := enterprise_value - debt + cash
         .ok (equity_value / shares,
           dcfExplanation current_fcf projected_fcf terminal_value_discounted enterprise_value
             equity_value revenue net_income ocf capex debt cash discount_rate growth_rate tg))) ∧
    ((3000000000 : ℚ) + -1000000000 = 2000000000) ∧
    (∃ iv expl,
      calculate_dcf (K := ℚ) 2000000000 5000000000 1000000000 1000000000 0.05 0.08 (some 0)
          10000000000 2000000000 3000000000 (-1000000000) 5 = .ok (iv, expl) ∧
      0 < iv ∧
      containsSub "WACC: 8.00%" expl = true ∧
      containsSub "Growth Rate: 5.00%" expl = true) := by
  have hgen : ∀ (fcf debt cash shares growth_rate discount_rate : ℚ) (tv : Option ℚ)
      (revenue net_income ocf capex : ℚ),
      1 + discount_rate ≠ 0 → shares ≠ 0 →
      calculate_dcf fcf debt cash shares growth_rate discount_rate tv revenue net_income ocf
          capex 5 =
        (let current_fcf := ocf + capex
         let projected_fcf := (List.range 5).map
           (fun i => current_fcf * (1 + growth_rate) ^ (i + 1) / (1 + discount_rate) ^ (i + 1))
         let tg := terminalGrowthRate growth_rate discount_rate
         let terminal_value_discounted :=
           current_fcf * (1 + growth_rate) ^ 5 * (1 + tg) / (discount_rate - tg) /
             (1 + discount_rate) ^ 5
         let enterprise_value := projected_fcf.sum + terminal_value_discounted
         let equity_value := enterprise_value - debt + cash
         .ok (equity_value / shares,
           dcfExplanation current_fcf projected_fcf terminal_value_discounted enterprise_value
             equity_value revenue net_income ocf capex debt cash discount_rate growth_rate
             tg)) := by
    intro fcf debt cash shares growth_rate discount_rate tv revenue net_income ocf capex h1 h2
    simp only [calculate_dcf]
    rw [if_neg (fun hc => h1 hc.2), if_neg h2]
  have hfd : formatPercent (0.08 : ℚ) = "8.00%" := by
    rw [formatPercent,
      formatFixed2_of_round _ 800 (roundHalfEven_eq_floor _ 800 (by norm_num) (by norm_num))]
    decide
  have hfg : formatPercent (0.05 : ℚ) = "5.00%" := by
    rw [formatPercent,
      formatFixed2_of_round _ 500 (roundHalfEven_eq_floor _ 500 (by norm_num) (by norm_num))]
    decide
  have h := hgen 2000000000 5000000000 1000000000 1000000000 0.05 0.08 (some 0)
    10000000000 2000000000 3000000000 (-1000000000) (by norm_num) (by norm_num)
  refine ⟨hgen, by norm_num, _, _, h, ?_, ?_, ?_⟩
  · norm_num [terminalGrowthRate, min_def, List.range_succ]
  · rw [dcfExplanation]
    apply containsSub_append_left
    apply containsSub_append_left
    apply containsSub_append_left
    apply containsSub_append_left
    rw [hfd, String.append_assoc]
    apply containsSub_append_right
    decide
  · rw [dcfExplanation]
    apply containsSub_append_left
    apply containsSub_append_left
    rw [hfg, String.append_assoc]
    apply containsSub_append_right
    decide

/-- C2 witness: the general projection/terminal/equity formula applied at a
degenerate but well-formed input. -/
theorem C2_dcf_valuation_witness :
    calculate_dcf (K := ℚ) 0 0 0 1 0 0 none 0 0 0 0 5 =
      (let current_fcf := (0 : ℚ) + 0
       let projected_fcf := (List.range 5).map
         (fun i => current_fcf * (1 + (0 : ℚ)) ^ (i + 1) / (1 + (0 : ℚ)) ^ (i + 1))
       let tg := terminalGrowthRate (0 : ℚ) 0
       let terminal_value_discounted :=
         current_fcf * (1 + (0 : ℚ)) ^ 5 * (1 + tg) / (0 - tg) / (1 + (0 : ℚ)) ^ 5
       let enterprise_value := projected_fcf.sum + terminal_value_discounted
       let equity_value := enterprise_value - 0 + 0
       .ok (equity_value / 1,
         dcfExplanation current_fcf projected_fcf terminal_value_discounted enterprise_value
           equity_value 0 0 0 0 0 0 0 0 tg)) :=
  C2_dcf_valuation.1 0 0 0 1 0 0 none 0 0 0 0 (by norm_num) (by norm_num)
